import Mathlib

/-!
# saigon-server: ingestion session and latest-snapshot retrieval

A shallow embedding of `main.go`.  The websocket connection, the SQLite store, the HTTP
response writer and the template engine are external collaborators of the program; their
observable behaviour is made explicit:

* the table `system_data` is a list of rows in insertion (rowid) order;
* what the peer and the clock do during one pass of the `for` loop of `handleConnection`
  is one `Iter` record, a session is a list of them;
* the response writer is a record of the committed status and the bytes written so far.
-/

namespace Saigon

/-! ## Constants -/

/-- Constant `port`. -/
def port : Nat := 8080

/-- Constant `authToken`: the shared secret. -/
def authToken : String := "happy-blue-falcon-cheese"

/-- Go's `time.Second`, a `time.Duration` counted in nanoseconds. -/
def second : Nat := 1000000000

/-- Constant `dataTimeout = 600 * time.Second`. -/
def dataTimeout : Nat := 600 * second

/-- Go's `http.StatusInternalServerError`. -/
def statusInternalServerError : Nat := 500

/-- Go's `http.StatusOK`, the status committed by the first body write. -/
def statusOK : Nat := 200

/-! ## Data model -/

/-- The Go struct `Message`, field for field. -/
structure Message where
  ID : Int
  Hostname : String
  OS : String
  Kernel : String
  Uptime : String
  Shell : String
  CPU : String
  CPUPercentage : String
  MemStats : String
  RAMPercentage : String
  TotalDiskSpace : String
  FreeDiskSpace : String
  UsedDiskSpace : String
  SystemArch : String
  AuthToken : String
  deriving DecidableEq, Repr

/-- One row of the table `system_data` created by `initializeDB`, column for column.
`timestamp` is the value of `CURRENT_TIMESTAMP`, which SQLite records as
`YYYY-MM-DD HH:MM:SS` in UTC: a whole number of seconds, here counted from the epoch
(the fixed-width text compares exactly as that number does).  No column is NULL: the only
INSERT of the program binds Go strings to the 13 data columns. -/
structure Row where
  id : Nat
  timestamp : Nat
  hostname : String
  os : String
  kernel : String
  uptime : String
  shell : String
  cpu : String
  cpu_percentage : String
  mem_stats : String
  ram_percentage : String
  total_disk_space : String
  free_disk_space : String
  used_disk_space : String
  system_arch : String
  deriving DecidableEq, Repr

/-- The table `system_data`: its rows in insertion order. -/
abbrev Store := List Row

/-- The 13 data columns of a row, in the order of the column list of the INSERT statement. -/
def Row.cols (r : Row) : List String :=
  [r.hostname, r.os, r.kernel, r.uptime, r.shell, r.cpu, r.cpu_percentage, r.mem_stats,
   r.ram_percentage, r.total_disk_space, r.free_disk_space, r.used_disk_space, r.system_arch]

/-- The 13 arguments `handleConnection` binds to the INSERT statement, in call order. -/
def Message.cols (m : Message) : List String :=
  [m.Hostname, m.OS, m.Kernel, m.Uptime, m.Shell, m.CPU, m.CPUPercentage, m.MemStats,
   m.RAMPercentage, m.TotalDiskSpace, m.FreeDiskSpace, m.UsedDiskSpace, m.SystemArch]

/-! ## The store -/

/-- The rowid SQLite gives a new row of an `INTEGER PRIMARY KEY` table: one more than the
largest id in the table, 1 for an empty table.  Ids are unbounded here; the engine's
behaviour once an id reaches 2^63 - 1 is outside the model. -/
def nextId (db : Store) : Nat :=
  (db.map Row.id).foldr max 0 + 1

/-- The statement
`INSERT INTO system_data (hostname, os, ..., system_arch) VALUES (?, ..., ?)`
executed successfully while the engine's clock reads `clock` nanoseconds: the columns `id`
and `timestamp` are not in the column list, the engine fills them in. -/
def execInsert (db : Store) (clock : Nat)
    (hostname os kernel uptime shell cpu cpu_percentage mem_stats ram_percentage
      total_disk_space free_disk_space used_disk_space system_arch : String) : Store :=
  db ++ [{ id := nextId db, timestamp := clock / second,
           hostname := hostname, os := os, kernel := kernel, uptime := uptime, shell := shell,
           cpu := cpu, cpu_percentage := cpu_percentage, mem_stats := mem_stats,
           ram_percentage := ram_percentage, total_disk_space := total_disk_space,
           free_disk_space := free_disk_space, used_disk_space := used_disk_space,
           system_arch := system_arch }]

/-! ## handleConnection -/

/-- The ways `conn.ReadJSON` fails. -/
inductive ReadErr where
  | closeErr (code : Nat)
  | timeout
  | malformed
  | other
  deriving DecidableEq, Repr

/-- Close code `websocket.CloseAbnormalClosure`. -/
def closeAbnormalClosure : Nat := 1006

/-- The call `websocket.IsUnexpectedCloseError(err, websocket.CloseAbnormalClosure)`: the
error is a close error whose code is not the listed one. -/
def isUnexpectedCloseError : ReadErr → Bool
  | .closeErr code => code != closeAbnormalClosure
  | _ => false

/-- The lines `handleConnection` logs. -/
inductive LogLine where
  | upgradeFailed
  | deadlineFailed
  | clientDisconnected
  | readFailed
  | invalidToken (tok : String)
  | insertFailed
  deriving DecidableEq, Repr

/-- What `handleConnection` does to the outside world, in order. -/
inductive Action where
  | setReadDeadline (t : Nat)
  | readJSON
  | insert (args : List String)
  | log (line : LogLine)
  | printOK (hostname : String)
  | close
  deriving DecidableEq, Repr

/-- What the environment does during one pass of the `for` loop: `now` is `time.Now()` when
the deadline is armed, `deadlineErr` whether `SetReadDeadline` fails, `arrive` the time at
which the peer's next frame (or close, or garbage) is complete, `payload` what `ReadJSON`
makes of it, `insertClock` the engine's clock at the INSERT and `insertErr` whether the
INSERT fails (a failed statement leaves the table as it was). -/
structure Iter where
  now : Nat
  deadlineErr : Bool
  arrive : Nat
  payload : Except ReadErr Message
  insertClock : Nat
  insertErr : Bool

/-- The call `conn.ReadJSON(&msg)` under the read deadline `deadline`: a read that is not
complete when the deadline is reached fails with a timeout. -/
def readJSON (deadline : Nat) (it : Iter) : Except ReadErr Message :=
  if deadline ≤ it.arrive then .error .timeout else it.payload

/-- Where a handler is once the environment's script is used up. -/
structure Outcome where
  db : Store
  trace : List Action
  closed : Bool
  deriving DecidableEq, Repr

/-- The `for` loop of `handleConnection`.  `closed` is false when the script ends while the
handler is still at the top of the loop. -/
def handleLoop (db : Store) : List Iter → Outcome
  | [] => { db := db, trace := [], closed := false }
  | it :: rest =>
    let deadline := it.now + dataTimeout
    if it.deadlineErr then
      { db := db, trace := [.setReadDeadline deadline, .log .deadlineFailed], closed := true }
    else
      match readJSON deadline it with
      | .error e =>
        { db := db,
          trace := [.setReadDeadline deadline, .readJSON,
            .log (if isUnexpectedCloseError e then .clientDisconnected else .readFailed)],
          closed := true }
      | .ok msg =>
        if msg.AuthToken != authToken then
          { db := db,
            trace := [.setReadDeadline deadline, .readJSON, .log (.invalidToken msg.AuthToken)],
            closed := true }
        else if it.insertErr then
          { db := db,
            trace := [.setReadDeadline deadline, .readJSON, .insert msg.cols,
              .log .insertFailed],
            closed := true }
        else
          let db1 := execInsert db it.insertClock msg.Hostname msg.OS msg.Kernel msg.Uptime
            msg.Shell msg.CPU msg.CPUPercentage msg.MemStats msg.RAMPercentage
            msg.TotalDiskSpace msg.FreeDiskSpace msg.UsedDiskSpace msg.SystemArch
          let r := handleLoop db1 rest
          { r with trace := [.setReadDeadline deadline, .readJSON, .insert msg.cols,
              .printOK msg.Hostname] ++ r.trace }

/-- The function `handleConnection`: upgrade, then the loop; `conn.Close()` is deferred and
runs when the loop returns. -/
def handleConnection (upgradeOk : Bool) (db : Store) (its : List Iter) : Outcome :=
  if !upgradeOk then
    { db := db, trace := [.log .upgradeFailed], closed := true }
  else
    let r := handleLoop db its
    if r.closed then { r with trace := r.trace ++ [.close] } else r

/-! ## handleLatestData -/

/-- The value the subquery's `MAX(timestamp)` has for the group of hostname `h`. -/
def maxTimestamp (db : Store) (h : String) : Nat :=
  ((db.filter fun r => r.hostname = h).map Row.timestamp).foldr max 0

/-- The subquery `SELECT hostname, MAX(timestamp) FROM system_data GROUP BY hostname`:
one pair for each distinct hostname of the table. -/
def groupMax (db : Store) : List (String × Nat) :=
  (db.map Row.hostname).dedup.map fun h => (h, maxTimestamp db h)

/-- The rows that pass `WHERE (hostname, timestamp) IN (subquery)`, in table order. -/
def selectLatest (db : Store) : List Row :=
  db.filter fun r => decide ((r.hostname, r.timestamp) ∈ groupMax db)

/-- The clause `ORDER BY hostname`: ascending in the byte order of the text, which for
UTF-8 is the lexicographic order of the code points (the order of `String`, spelled on the
list of characters).  The engine does not fix the order of rows with equal hostnames; the
model keeps them in table order. -/
def orderByHostname (rows : List Row) : List Row :=
  rows.insertionSort fun a b => a.hostname.toList ≤ b.hostname.toList

/-- The query of `handleLatestData`:
`SELECT * FROM system_data WHERE (hostname, timestamp) IN (SELECT hostname, MAX(timestamp)
FROM system_data GROUP BY hostname) ORDER BY hostname`. -/
def latestQuery (db : Store) : List Row :=
  orderByHostname (selectLatest db)

/-- The decimal digit of the units of `d`. -/
def digit (d : Nat) : Char := Char.ofNat (48 + d % 10)

/-- Two decimal digits, zero padded. -/
def pad2 (n : Nat) : List Char := [digit (n / 10), digit n]

/-- Four decimal digits, zero padded. -/
def pad4 (n : Nat) : List Char := [digit (n / 1000), digit (n / 100), digit (n / 10), digit n]

/-- The calendar date (year, month, day) of the day `z` days after 1970-01-01. -/
def civil (z : Nat) : Nat × Nat × Nat :=
  let z := z + 719468
  let era := z / 146097
  let doe := z % 146097
  let yoe := (doe + doe / 36524 - doe / 1460 - doe / 146096) / 365
  let doy := doe + yoe / 100 - (365 * yoe + yoe / 4)
  let mp := (5 * doy + 2) / 153
  let d := doy - (153 * mp + 2) / 5 + 1
  let m := if mp < 10 then mp + 3 else mp - 9
  let y := yoe + era * 400 + (if m ≤ 2 then 1 else 0)
  (y, m, d)

/-- The text of a whole-second UTC time in Go's layout `time.RFC3339Nano`, for years up to
9999: what the SQLite driver and `database/sql` store into a string destination for a
DATETIME column such as `timestamp`. -/
def rfc3339 (t : Nat) : String :=
  let (y, m, d) := civil (t / 86400)
  let s := t % 86400
  String.mk (pad4 y ++ ['-'] ++ pad2 m ++ ['-'] ++ pad2 d ++ ['T'] ++ pad2 (s / 3600) ++ [':']
    ++ pad2 (s % 3600 / 60) ++ [':'] ++ pad2 (s % 60) ++ ['Z'])

/-- The rows the cursor hands over before `rows.Next()` returns false: all rows of the
result, or only the first `k` when the iteration fails after `k` rows.  `handleLatestData`
never reads `rows.Err()`, so it cannot tell the two apart. -/
def delivered (iterErr : Option Nat) (rows : List Row) : List Row :=
  match iterErr with
  | none => rows
  | some k => rows.take k

/-- The call `rows.Scan(&msg.ID, &msg.Hostname, &msg.OS, ..., &msg.SystemArch,
&msg.AuthToken)` on a row of `SELECT *`, which has the 15 columns `id, timestamp, hostname,
os, ..., system_arch` in table order: the k-th destination receives the k-th column.
`fmt` is the text the driver and `database/sql` make of a DATETIME value when the
destination is a string. -/
def scanRow (fmt : Nat → String) (r : Row) : Message :=
  { ID := (r.id : Int)
    Hostname := fmt r.timestamp
    OS := r.hostname
    Kernel := r.os
    Uptime := r.kernel
    Shell := r.uptime
    CPU := r.shell
    CPUPercentage := r.cpu
    MemStats := r.cpu_percentage
    RAMPercentage := r.mem_stats
    TotalDiskSpace := r.ram_percentage
    FreeDiskSpace := r.total_disk_space
    UsedDiskSpace := r.free_disk_space
    SystemArch := r.used_disk_space
    AuthToken := r.system_arch }

/-- The loop `for rows.Next() { ... }`: scan a row, or stop at the first row whose scan
fails; clear `AuthToken` and `ID`; append to `data`. -/
def scanLoop (fmt : Nat → String) (scanErr : Row → Bool) :
    List Row → List Message → Option (List Message)
  | [], data => some data
  | r :: rest, data =>
    if scanErr r then none
    else
      let msg := scanRow fmt r
      let msg := { msg with AuthToken := "" }
      let msg := { msg with ID := 0 }
      scanLoop fmt scanErr rest (data ++ [msg])

/-- An `http.ResponseWriter`: the status line once it is committed, and the body bytes
written so far. -/
structure ResponseWriter where
  status : Option Nat
  body : String
  deriving DecidableEq, Repr

/-- A fresh response. -/
def ResponseWriter.new : ResponseWriter := { status := none, body := "" }

/-- The method `WriteHeader`: commits the status unless one is committed already. -/
def ResponseWriter.writeHeader (w : ResponseWriter) (code : Nat) : ResponseWriter :=
  match w.status with
  | some _ => w
  | none => { w with status := some code }

/-- The method `Write`: commits status 200 if none is committed yet, then appends. -/
def ResponseWriter.write (w : ResponseWriter) (s : String) : ResponseWriter :=
  { status := some (w.status.getD statusOK), body := w.body ++ s }

/-- The call `http.Error(w, msg, code)`: `WriteHeader(code)`, then the message and a
newline. -/
def httpError (w : ResponseWriter) (msg : String) (code : Nat) : ResponseWriter :=
  (w.writeHeader code).write (msg ++ "\n")

/-- The status the client sees once the handler has returned: 200 when the handler never
committed one. -/
def ResponseWriter.finalStatus (w : ResponseWriter) : Nat :=
  w.status.getD statusOK

/-- What the environment does during one call of `handleLatestData`.  `iterErr` is the number
of rows after which the iteration over the result fails, if it does.  `exec data` is the run
of `tmpl.Execute(w, data)` for the template file on disk: the chunks it writes to `w`, in
order, and whether it then stops with an error. -/
structure QueryEnv where
  queryErr : Bool
  iterErr : Option Nat
  scanErr : Row → Bool
  fmt : Nat → String
  parseErr : Bool
  exec : List Message → List String × Bool

/-- What a call of `handleLatestData` leaves behind: the response, and the slice handed to
the template when execution was reached. -/
structure Reply where
  w : ResponseWriter
  data : Option (List Message)

/-- The function `handleLatestData`. -/
def handleLatestData (env : QueryEnv) (db : Store) : Reply :=
  let w := ResponseWriter.new
  if env.queryErr then
    { w := httpError w "Failed to query database" statusInternalServerError, data := none }
  else
    match scanLoop env.fmt env.scanErr (delivered env.iterErr (latestQuery db)) [] with
    | none =>
      { w := httpError w "Failed to scan row" statusInternalServerError, data := none }
    | some data =>
      if env.parseErr then
        { w := httpError w "Failed to parse template" statusInternalServerError, data := none }
      else
        let out := env.exec data
        let w := out.1.foldl ResponseWriter.write w
        if out.2 then
          { w := httpError w "Failed to execute template" statusInternalServerError,
            data := some data }
        else
          { w := w, data := some data }

/-! ## Vocabulary of the session properties -/

/-- The row the store creates for message `m` when its clock reads `clock`. -/
def rowOf (db : Store) (clock : Nat) (m : Message) : Row :=
  { id := nextId db, timestamp := clock / second,
    hostname := m.Hostname, os := m.OS, kernel := m.Kernel, uptime := m.Uptime,
    shell := m.Shell, cpu := m.CPU, cpu_percentage := m.CPUPercentage,
    mem_stats := m.MemStats, ram_percentage := m.RAMPercentage,
    total_disk_space := m.TotalDiskSpace, free_disk_space := m.FreeDiskSpace,
    used_disk_space := m.UsedDiskSpace, system_arch := m.SystemArch }

/-- A session event fails: the deadline cannot be armed, nothing complete arrives before
the deadline, what arrives is a close or is malformed, the token is not the shared secret, or
the INSERT fails. -/
def Iter.fails (it : Iter) : Bool :=
  it.deadlineErr || decide (it.now + dataTimeout ≤ it.arrive) ||
    match it.payload with
    | .error _ => true
    | .ok m => m.AuthToken != authToken || it.insertErr

/-- The message an event carries, when it carries one. -/
def Iter.message? (it : Iter) : Option Message :=
  match it.payload with
  | .error _ => none
  | .ok m => some m

/-- The arguments of an INSERT action. -/
def Action.insertArgs? : Action → Option (List String)
  | .insert args => some args
  | _ => none

/-- The deadline an action arms. -/
def Action.deadline? : Action → Option Nat
  | .setReadDeadline t => some t
  | _ => none

/-! ## Concrete inputs -/

/-- A snapshot of host `h` with uptime `up`, sent with token `tok` and client-side id 7. -/
def sampleMsg (h up tok : String) : Message :=
  { ID := 7, Hostname := h, OS := "linux", Kernel := "6.1", Uptime := up, Shell := "bash",
    CPU := "ryzen", CPUPercentage := "3%", MemStats := "2G/8G", RAMPercentage := "25%",
    TotalDiskSpace := "100G", FreeDiskSpace := "60G", UsedDiskSpace := "40G",
    SystemArch := "amd64", AuthToken := tok }

/-- An event: message `m` arrives `delay` nanoseconds after the deadline was armed at `now`,
and the INSERT, if any, runs at `clock` and succeeds. -/
def arrival (now delay clock : Nat) (m : Message) : Iter :=
  { now := now, deadlineErr := false, arrive := now + delay, payload := .ok m,
    insertClock := clock, insertErr := false }

/-- A session that starts 0.7 s into second 1700000000. -/
def lateStart : Nat := 1700000000700000000

/-- The first message of that session, persisted 0.2 s after the session started. -/
def lateStartIter : Iter :=
  arrival lateStart 100000000 (lateStart + 200000000) (sampleMsg "web1" "1 day" authToken)

/-- A snapshot with an empty hostname, persisted 0.2 s after that session started. -/
def emptyHostIter : Iter :=
  arrival lateStart 100000000 (lateStart + 200000000) (sampleMsg "" "1 day" authToken)

/-- Two snapshots of "web1" that reach the store within the same second. -/
def tiedStore : Store :=
  (handleConnection true []
    [arrival 1700000000100000000 1000 1700000000200000000 (sampleMsg "web1" "1 day" authToken),
     arrival 1700000000300000000 1000 1700000000400000000
       (sampleMsg "web1" "1 day, 0:01" authToken)]).db

/-- Snapshots of hosts "A", "B", "A", one second apart. -/
def abaStore : Store :=
  (handleConnection true []
    [arrival 1000000000 1000 1000000000 (sampleMsg "A" "1 day" authToken),
     arrival 2000000000 1000 2000000000 (sampleMsg "B" "5 days" authToken),
     arrival 3000000000 1000 3000000000 (sampleMsg "A" "1 day, 0:02" authToken)]).db

/-- The first snapshot of the scenario: host "web1". -/
def web1First : Message := sampleMsg "web1" "1 day" authToken

/-- The second snapshot of the scenario: host "web1" one second later, uptime updated. -/
def web1Second : Message := sampleMsg "web1" "1 day, 0:01" authToken

/-- The store after an agent sent `web1First`, then `web1Second` one second later. -/
def web1Store : Store :=
  (handleConnection true []
    [arrival 1700000000000000000 1000 1700000000000000000 web1First,
     arrival 1700000001000000000 1000 1700000001000000000 web1Second]).db

/-- An environment in which the query, the iteration, every scan and the template parse
succeed, and the template writes nothing. -/
def quietEnv (fmt : Nat → String) : QueryEnv :=
  { queryErr := false, iterErr := none, scanErr := fun _ => false, fmt := fmt,
    parseErr := false, exec := fun _ => ([], false) }

/-- The run of a template `{{range .}}<li>{{.OS}}</li>{{.Load}}{{end}}`: `Message` has no
field `Load`, so execution writes the first record's item and then stops with an error. -/
def brokenTemplate : List Message → List String × Bool
  | [] => ([], false)
  | m :: _ => (["<li>", m.OS, "</li>"], true)

/-- An environment whose template file is `brokenTemplate`. -/
def brokenEnv : QueryEnv :=
  { queryErr := false, iterErr := none, scanErr := fun _ => false, fmt := rfc3339,
    parseErr := false, exec := brokenTemplate }

/-- The run of a template `{{range .}}<li>{{.Hostname}}</li>{{end}}`, which cannot fail. -/
def listTemplate (data : List Message) : List String × Bool :=
  (data.map fun m => "<li>" ++ m.Hostname ++ "</li>", false)

/-- An environment in which the iteration over the result fails after `k` rows and
everything else succeeds, the template file being `listTemplate`. -/
def cutEnv (k : Nat) : QueryEnv :=
  { queryErr := false, iterErr := some k, scanErr := fun _ => false, fmt := rfc3339,
    parseErr := false, exec := listTemplate }

/-- The records `handleLatestData` builds from the two latest rows of `abaStore`. -/
def abaRecords : List Message :=
  [{ ID := 0, Hostname := "1970-01-01T00:00:03Z", OS := "A", Kernel := "linux",
     Uptime := "6.1", Shell := "1 day, 0:02", CPU := "bash", CPUPercentage := "ryzen",
     MemStats := "3%", RAMPercentage := "2G/8G", TotalDiskSpace := "25%",
     FreeDiskSpace := "100G", UsedDiskSpace := "60G", SystemArch := "40G", AuthToken := "" },
   { ID := 0, Hostname := "1970-01-01T00:00:02Z", OS := "B", Kernel := "linux",
     Uptime := "6.1", Shell := "5 days", CPU := "bash", CPUPercentage := "ryzen",
     MemStats := "3%", RAMPercentage := "2G/8G", TotalDiskSpace := "25%",
     FreeDiskSpace := "100G", UsedDiskSpace := "60G", SystemArch := "40G", AuthToken := "" }]

/-- The record `handleLatestData` builds from the latest row of `web1Store`. -/
def web1Record (fmt : Nat → String) : Message :=
  { ID := 0, Hostname := fmt 1700000001, OS := "web1", Kernel := "linux", Uptime := "6.1",
    Shell := "1 day, 0:01", CPU := "bash", CPUPercentage := "ryzen", MemStats := "3%",
    RAMPercentage := "2G/8G", TotalDiskSpace := "25%", FreeDiskSpace := "100G",
    UsedDiskSpace := "60G", SystemArch := "40G", AuthToken := "" }

/-- A session of three events: a good snapshot, a snapshot whose INSERT fails, a good
snapshot. -/
def failingSession : List Iter :=
  [arrival 1000000000 1000 1000000000 (sampleMsg "A" "1 day" authToken),
   { arrival 2000000000 1000 2000000000 (sampleMsg "B" "5 days" authToken) with
     insertErr := true },
   arrival 3000000000 1000 3000000000 (sampleMsg "A" "1 day, 0:02" authToken)]

/-! ## Lemmas on the session loop -/

theorem execInsert_eq (db : Store) (clock : Nat) (m : Message) :
    execInsert db clock m.Hostname m.OS m.Kernel m.Uptime m.Shell m.CPU m.CPUPercentage
      m.MemStats m.RAMPercentage m.TotalDiskSpace m.FreeDiskSpace m.UsedDiskSpace m.SystemArch
      = db ++ [rowOf db clock m] := rfl

theorem rowOf_cols (db : Store) (clock : Nat) (m : Message) :
    (rowOf db clock m).cols = m.cols := rfl

theorem handleLoop_deadlineErr (db : Store) (it : Iter) (rest : List Iter)
    (h : it.deadlineErr = true) :
    handleLoop db (it :: rest) =
      { db := db, trace := [.setReadDeadline (it.now + dataTimeout), .log .deadlineFailed],
        closed := true } := by
  simp [handleLoop, h]

theorem handleLoop_readErr (db : Store) (it : Iter) (rest : List Iter) (e : ReadErr)
    (hdl : it.deadlineErr = false) (h : readJSON (it.now + dataTimeout) it = .error e) :
    handleLoop db (it :: rest) =
      { db := db,
        trace := [.setReadDeadline (it.now + dataTimeout), .readJSON,
          .log (if isUnexpectedCloseError e then .clientDisconnected else .readFailed)],
        closed := true } := by
  simp [handleLoop, hdl, h]

theorem handleLoop_badToken (db : Store) (it : Iter) (rest : List Iter) (m : Message)
    (hdl : it.deadlineErr = false) (h : readJSON (it.now + dataTimeout) it = .ok m)
    (htok : m.AuthToken ≠ authToken) :
    handleLoop db (it :: rest) =
      { db := db,
        trace := [.setReadDeadline (it.now + dataTimeout), .readJSON,
          .log (.invalidToken m.AuthToken)],
        closed := true } := by
  simp [handleLoop, hdl, h, htok]

theorem handleLoop_insertErr (db : Store) (it : Iter) (rest : List Iter) (m : Message)
    (hdl : it.deadlineErr = false) (h : readJSON (it.now + dataTimeout) it = .ok m)
    (htok : m.AuthToken = authToken) (hins : it.insertErr = true) :
    handleLoop db (it :: rest) =
      { db := db,
        trace := [.setReadDeadline (it.now + dataTimeout), .readJSON, .insert m.cols,
          .log .insertFailed],
        closed := true } := by
  simp [handleLoop, hdl, h, htok, hins]

theorem handleLoop_ok (db : Store) (it : Iter) (rest : List Iter) (m : Message)
    (hdl : it.deadlineErr = false) (h : readJSON (it.now + dataTimeout) it = .ok m)
    (htok : m.AuthToken = authToken) (hins : it.insertErr = false) :
    handleLoop db (it :: rest) =
      { db := (handleLoop (db ++ [rowOf db it.insertClock m]) rest).db,
        trace := [.setReadDeadline (it.now + dataTimeout), .readJSON, .insert m.cols,
          .printOK m.Hostname] ++ (handleLoop (db ++ [rowOf db it.insertClock m]) rest).trace,
        closed := (handleLoop (db ++ [rowOf db it.insertClock m]) rest).closed } := by
  simp [handleLoop, hdl, h, htok, hins, execInsert_eq]

theorem readJSON_of_payload (it : Iter) (m : Message) (hpay : it.payload = .ok m)
    (harr : it.arrive < it.now + dataTimeout) :
    readJSON (it.now + dataTimeout) it = .ok m := by
  simp [readJSON, hpay, Nat.not_le.mpr harr]

theorem authToken_ne_empty : authToken ≠ "" := by decide

theorem le_foldr_max (l : List Nat) (x : Nat) (hx : x ∈ l) : x ≤ l.foldr max 0 := by
  induction l with
  | nil => cases hx
  | cons a l ih =>
    rcases List.mem_cons.mp hx with rfl | hx
    · exact le_max_left _ _
    · exact le_trans (ih hx) (le_max_right _ _)

theorem lt_nextId (db : Store) : ∀ r ∈ db, r.id < nextId db := by
  intro r hr
  have h := le_foldr_max (db.map Row.id) r.id (List.mem_map_of_mem _ hr)
  unfold nextId
  omega

/-! ## Ingestion: persisted rows -/

/-- C1 (as amended): a message that is read successfully, carries the shared secret and whose
INSERT succeeds makes the store gain exactly one row, appended to the rows already there; the
13 data columns of the row are the message's fields unchanged (an empty hostname included);
its id is the store's next id, larger than every id present, its timestamp is the store's
clock in whole seconds, neither depends on the message's `ID` field, and the timestamp is not
earlier than the session's start time truncated to whole seconds. -/
theorem handleLoop_persists_one_row (db : Store) (it : Iter) (rest : List Iter) (m : Message)
    (start : Nat)
    (hdl : it.deadlineErr = false) (hpay : it.payload = .ok m)
    (harr : it.arrive < it.now + dataTimeout) (htok : m.AuthToken = authToken)
    (hins : it.insertErr = false) (hclock : start ≤ it.insertClock) :
    ∃ row : Row,
      (handleLoop db [it]).db = db ++ [row] ∧
      (handleLoop db (it :: rest)).db = (handleLoop (db ++ [row]) rest).db ∧
      row.cols = m.cols ∧
      row.hostname = m.Hostname ∧
      row.id = nextId db ∧ (∀ r ∈ db, r.id < row.id) ∧
      row.timestamp = it.insertClock / second ∧
      start / second ≤ row.timestamp ∧
      ∀ k : Int, (handleLoop db [{ it with payload := .ok { m with ID := k } }]).db
        = db ++ [row] := by
  have hread := readJSON_of_payload it m hpay harr
  refine ⟨rowOf db it.insertClock m, ?_, ?_, rfl, rfl, rfl, lt_nextId db, rfl, ?_, ?_⟩
  · rw [handleLoop_ok db it [] m hdl hread htok hins]
    simp [handleLoop]
  · rw [handleLoop_ok db it rest m hdl hread htok hins]
  · exact Nat.div_le_div_right hclock
  · intro k
    have hread2 : readJSON (({ it with payload := .ok { m with ID := k } } : Iter).now
        + dataTimeout) { it with payload := .ok { m with ID := k } }
        = .ok { m with ID := k } :=
      readJSON_of_payload _ _ rfl harr
    have key := handleLoop_ok db ({ it with payload := .ok { m with ID := k } } : Iter) []
      { m with ID := k } hdl hread2 htok hins
    rw [key]
    simp [handleLoop, rowOf]

/-- Witness of C1: a snapshot with an empty hostname, the first message of a session, into an
empty store. -/
theorem handleLoop_persists_one_row_witness :
    ∃ row : Row,
      (handleLoop [] [emptyHostIter]).db = [] ++ [row] ∧
      (handleLoop [] (emptyHostIter :: [])).db = (handleLoop ([] ++ [row]) []).db ∧
      row.cols = (sampleMsg "" "1 day" authToken).cols ∧
      row.hostname = (sampleMsg "" "1 day" authToken).Hostname ∧
      row.id = nextId [] ∧ (∀ r ∈ ([] : Store), r.id < row.id) ∧
      row.timestamp = emptyHostIter.insertClock / second ∧
      lateStart / second ≤ row.timestamp ∧
      ∀ k : Int, (handleLoop [] [{ emptyHostIter with
        payload := .ok { sampleMsg "" "1 day" authToken with ID := k } }]).db
        = [] ++ [row] :=
  handleLoop_persists_one_row [] emptyHostIter [] (sampleMsg "" "1 day" authToken)
    lateStart rfl rfl (by decide) rfl rfl (by decide)

/-- Counterexample to C1 as stated: the session starts at 1700000000.7 s, its first message
is persisted at 1700000000.9 s, and the row's timestamp is second 1700000000, which is
earlier than the session's start. -/
theorem timestamp_before_session_start :
    lateStartIter.deadlineErr = false ∧
    lateStartIter.payload = .ok (sampleMsg "web1" "1 day" authToken) ∧
    lateStartIter.arrive < lateStartIter.now + dataTimeout ∧
    lateStart ≤ lateStartIter.now ∧ lateStart ≤ lateStartIter.insertClock ∧
    (handleLoop [] [lateStartIter]).db.map Row.timestamp = [1700000000] ∧
    1700000000 * second < lateStart :=
  ⟨rfl, rfl, by decide, by decide, by decide, by decide, by decide⟩

/-! ## Ingestion: authentication -/

/-- C2: a message whose token differs from the shared secret, or is missing (empty), leaves
the store exactly as it was and ends the session: the handler returns after logging, with no
INSERT, and nothing the peer would send afterwards (`rest`) is read or persisted. -/
theorem handleLoop_rejects_bad_token (db : Store) (it : Iter) (rest : List Iter) (m : Message)
    (hdl : it.deadlineErr = false) (hpay : it.payload = .ok m)
    (harr : it.arrive < it.now + dataTimeout)
    (htok : m.AuthToken ≠ authToken ∨ m.AuthToken = "") :
    handleLoop db (it :: rest) =
      { db := db,
        trace := [.setReadDeadline (it.now + dataTimeout), .readJSON,
          .log (.invalidToken m.AuthToken)],
        closed := true } ∧
    (handleConnection true db (it :: rest)).db = db ∧
    (handleConnection true db (it :: rest)).closed = true ∧
    (handleConnection true db (it :: rest)).trace =
      [.setReadDeadline (it.now + dataTimeout), .readJSON, .log (.invalidToken m.AuthToken),
        .close] := by
  have hne : m.AuthToken ≠ authToken := by
    rcases htok with h | h
    · exact h
    · rw [h]; exact fun h' => authToken_ne_empty h'.symm
  have hread := readJSON_of_payload it m hpay harr
  have hloop := handleLoop_badToken db it rest m hdl hread hne
  refine ⟨hloop, ?_, ?_, ?_⟩ <;> simp [handleConnection, hloop]

/-- Witness of C2: after one good snapshot, a snapshot with token "wrong" followed by a good
one: the store keeps its single row. -/
theorem handleLoop_rejects_bad_token_witness :
    handleLoop (handleLoop [] [lateStartIter]).db
        (arrival 5 1 6 (sampleMsg "web1" "2 days" "wrong") ::
          [arrival 7 1 8 (sampleMsg "web1" "3 days" authToken)]) =
      { db := (handleLoop [] [lateStartIter]).db,
        trace := [.setReadDeadline (5 + dataTimeout), .readJSON, .log (.invalidToken "wrong")],
        closed := true } ∧
    (handleConnection true (handleLoop [] [lateStartIter]).db
        (arrival 5 1 6 (sampleMsg "web1" "2 days" "wrong") ::
          [arrival 7 1 8 (sampleMsg "web1" "3 days" authToken)])).db
      = (handleLoop [] [lateStartIter]).db ∧
    (handleConnection true (handleLoop [] [lateStartIter]).db
        (arrival 5 1 6 (sampleMsg "web1" "2 days" "wrong") ::
          [arrival 7 1 8 (sampleMsg "web1" "3 days" authToken)])).closed = true ∧
    (handleConnection true (handleLoop [] [lateStartIter]).db
        (arrival 5 1 6 (sampleMsg "web1" "2 days" "wrong") ::
          [arrival 7 1 8 (sampleMsg "web1" "3 days" authToken)])).trace =
      [.setReadDeadline (5 + dataTimeout), .readJSON, .log (.invalidToken "wrong"), .close] :=
  handleLoop_rejects_bad_token (handleLoop [] [lateStartIter]).db
    (arrival 5 1 6 (sampleMsg "web1" "2 days" "wrong"))
    [arrival 7 1 8 (sampleMsg "web1" "3 days" authToken)]
    (sampleMsg "web1" "2 days" "wrong") rfl rfl (by decide) (Or.inl (by decide))

/-! ## Ingestion: failures -/

theorem readJSON_ok_iff (d : Nat) (it : Iter) (m : Message) :
    readJSON d it = .ok m ↔ ¬ d ≤ it.arrive ∧ it.payload = .ok m := by
  unfold readJSON
  by_cases h : d ≤ it.arrive
  · simp [h]
  · simp [h]

theorem fails_eq_false_iff (it : Iter) :
    it.fails = false ↔
      ∃ m, it.deadlineErr = false ∧ readJSON (it.now + dataTimeout) it = .ok m ∧
        m.AuthToken = authToken ∧ it.insertErr = false ∧ it.message? = some m := by
  constructor
  · intro h
    unfold Iter.fails at h
    cases hp : it.payload with
    | error e => simp [hp] at h
    | ok m =>
      simp [hp] at h
      obtain ⟨⟨hdl, harr⟩, htok, hins⟩ := h
      exact ⟨m, hdl, (readJSON_ok_iff _ it m).2 ⟨Nat.not_le.mpr harr, hp⟩, htok, hins,
        by simp [Iter.message?, hp]⟩
  · rintro ⟨m, hdl, hread, htok, hins, -⟩
    obtain ⟨harr, hp⟩ := (readJSON_ok_iff _ it m).1 hread
    simp [Iter.fails, hdl, harr, hp, htok, hins]

theorem handleLoop_fails (db : Store) (it : Iter) (rest : List Iter) (h : it.fails = true) :
    handleLoop db (it :: rest) = handleLoop db [it] ∧
    (handleLoop db [it]).db = db ∧ (handleLoop db [it]).closed = true ∧
    ((handleLoop db [it]).trace.filterMap Action.insertArgs?).length ≤ 1 ∧
    (handleLoop db [it]).trace.filterMap Action.deadline? = [it.now + dataTimeout] := by
  cases hdl : it.deadlineErr with
  | true =>
    rw [handleLoop_deadlineErr db it rest hdl, handleLoop_deadlineErr db it [] hdl]
    simp [Action.insertArgs?, Action.deadline?]
  | false =>
    cases hr : readJSON (it.now + dataTimeout) it with
    | error e =>
      rw [handleLoop_readErr db it rest e hdl hr, handleLoop_readErr db it [] e hdl hr]
      simp [Action.insertArgs?, Action.deadline?]
    | ok m =>
      by_cases htok : m.AuthToken = authToken
      · cases hins : it.insertErr with
        | true =>
          rw [handleLoop_insertErr db it rest m hdl hr htok hins,
            handleLoop_insertErr db it [] m hdl hr htok hins]
          simp [Action.insertArgs?, Action.deadline?]
        | false =>
          obtain ⟨harr, hp⟩ := (readJSON_ok_iff _ it m).1 hr
          have : it.fails = false :=
            (fails_eq_false_iff it).2 ⟨m, hdl, hr, htok, hins, by simp [Iter.message?, hp]⟩
          rw [this] at h
          cases h
      · rw [handleLoop_badToken db it rest m hdl hr htok,
          handleLoop_badToken db it [] m hdl hr htok]
        simp [Action.insertArgs?, Action.deadline?]

/-- C8: for every sequence of session events, the handler stops at the first failing event,
whatever it is (deadline not armed, read failure, deadline exceeded, bad token, insert
failure): the events after it are never consumed; the rows the session adds to the store are
exactly the messages of the events before it, one row each, in arrival order, so the failing
message is not persisted; and beyond one INSERT per persisted message the handler issues at
most one more, the single attempt for the failing message. -/
theorem handleLoop_stops_at_first_failure (db : Store) (its : List Iter) :
    (∃ added : List Row,
      (handleLoop db its).db = db ++ added ∧
      added.length = (its.takeWhile fun it => !it.fails).length ∧
      added.map Row.cols =
        ((its.takeWhile fun it => !it.fails).filterMap Iter.message?).map Message.cols) ∧
    ((handleLoop db its).closed = true ↔ ∃ it ∈ its, it.fails = true) ∧
    handleLoop db (its.take ((its.takeWhile fun it => !it.fails).length + 1))
      = handleLoop db its ∧
    ∃ extra : List (List String), extra.length ≤ 1 ∧
      (handleLoop db its).trace.filterMap Action.insertArgs? =
        ((its.takeWhile fun it => !it.fails).filterMap Iter.message?).map Message.cols
          ++ extra := by
  induction its generalizing db with
  | nil =>
    refine ⟨⟨[], by simp [handleLoop], rfl, rfl⟩, by simp [handleLoop], rfl, [], by simp, ?_⟩
    simp [handleLoop]
  | cons it rest ih =>
    cases hf : it.fails with
    | true =>
      obtain ⟨h1, h2, h3, h4, -⟩ := handleLoop_fails db it rest hf
      have htw : (List.takeWhile (fun it => !it.fails) (it :: rest)) = [] := by
        simp [List.takeWhile, hf]
      rw [htw, h1]
      refine ⟨⟨[], by simp [h2], rfl, rfl⟩, ?_, by simp, ?_⟩
      · simp [h3, hf]
      · exact ⟨_, h4, by simp⟩
    | false =>
      obtain ⟨m, hdl, hread, htok, hins, hmsg⟩ := (fails_eq_false_iff it).1 hf
      have htw : (List.takeWhile (fun it => !it.fails) (it :: rest))
          = it :: List.takeWhile (fun it => !it.fails) rest := by
        simp [List.takeWhile, hf]
      obtain ⟨⟨added, ha1, ha2, ha3⟩, hc, ht, extra, he1, he2⟩ :=
        ih (db ++ [rowOf db it.insertClock m])
      have hstep := handleLoop_ok db it rest m hdl hread htok hins
      rw [htw]
      refine ⟨⟨rowOf db it.insertClock m :: added, ?_, ?_, ?_⟩, ?_, ?_, extra, he1, ?_⟩
      · rw [hstep]; simp [ha1]
      · simp [ha2]
      · simp [ha3, hmsg, rowOf_cols]
      · rw [hstep]
        simp only [hc, List.mem_cons]
        constructor
        · rintro ⟨x, hx, hxf⟩
          exact ⟨x, Or.inr hx, hxf⟩
        · rintro ⟨x, hx | hx, hxf⟩
          · rw [hx, hf] at hxf; cases hxf
          · exact ⟨x, hx, hxf⟩
      · rw [List.length_cons, List.take_succ_cons, hstep,
          handleLoop_ok db it _ m hdl hread htok hins, ht]
      · rw [hstep]
        simp [Action.insertArgs?, he2, hmsg]

/-! ## Ingestion: the read deadline -/

theorem handleLoop_head (db : Store) (its : List Iter) :
    (handleLoop db its).trace.head? ≠ some .readJSON := by
  cases its with
  | nil => simp [handleLoop]
  | cons it rest =>
    cases hf : it.fails with
    | true =>
      cases hdl : it.deadlineErr with
      | true => rw [handleLoop_deadlineErr db it rest hdl]; simp
      | false =>
        cases hr : readJSON (it.now + dataTimeout) it with
        | error e => rw [handleLoop_readErr db it rest e hdl hr]; simp
        | ok m =>
          by_cases htok : m.AuthToken = authToken
          · cases hins : it.insertErr with
            | true => rw [handleLoop_insertErr db it rest m hdl hr htok hins]; simp
            | false => rw [handleLoop_ok db it rest m hdl hr htok hins]; simp
          · rw [handleLoop_badToken db it rest m hdl hr htok]; simp
    | false =>
      obtain ⟨m, hdl, hread, htok, hins, -⟩ := (fails_eq_false_iff it).1 hf
      rw [handleLoop_ok db it rest m hdl hread htok hins]; simp

theorem handleLoop_chain (db : Store) (its : List Iter) :
    (handleLoop db its).trace.Chain' (fun a b =>
      b = .readJSON → ∃ it ∈ its, a = .setReadDeadline (it.now + dataTimeout)) := by
  induction its generalizing db with
  | nil => simp [handleLoop]
  | cons it rest ih =>
    cases hdl : it.deadlineErr with
    | true => rw [handleLoop_deadlineErr db it rest hdl]; simp
    | false =>
      cases hr : readJSON (it.now + dataTimeout) it with
      | error e => rw [handleLoop_readErr db it rest e hdl hr]; simp
      | ok m =>
        by_cases htok : m.AuthToken = authToken
        · cases hins : it.insertErr with
          | true => rw [handleLoop_insertErr db it rest m hdl hr htok hins]; simp
          | false =>
            rw [handleLoop_ok db it rest m hdl hr htok hins]
            refine List.Chain'.append (by simp) ?_ ?_
            · refine (ih (db ++ [rowOf db it.insertClock m])).imp ?_
              intro a b hab hb
              obtain ⟨x, hx, hxa⟩ := hab hb
              exact ⟨x, List.mem_cons_of_mem _ hx, hxa⟩
            · intro x _ y hy hyr
              have := handleLoop_head (db ++ [rowOf db it.insertClock m]) rest
              rw [hyr] at hy
              exact absurd (Option.mem_def.mp hy) this
        · rw [handleLoop_badToken db it rest m hdl hr htok]; simp

theorem handleLoop_deadlines (db : Store) (its : List Iter) :
    (handleLoop db its).trace.filterMap Action.deadline? =
      (its.take ((its.takeWhile fun it => !it.fails).length + 1)).map
        fun it => it.now + dataTimeout := by
  induction its generalizing db with
  | nil => simp [handleLoop]
  | cons it rest ih =>
    cases hf : it.fails with
    | true =>
      obtain ⟨h1, -, -, -, h5⟩ := handleLoop_fails db it rest hf
      rw [h1, h5]
      simp [List.takeWhile, hf]
    | false =>
      obtain ⟨m, hdl, hread, htok, hins, -⟩ := (fails_eq_false_iff it).1 hf
      rw [handleLoop_ok db it rest m hdl hread htok hins]
      simp [List.takeWhile, hf, Action.deadline?, ih]

/-- C10: the idle timeout is 600 seconds; in every run of the handler a read is never the
first action and the action just before a read arms the read deadline at the time of that
pass of the loop plus exactly 600 seconds; the deadline is armed once for each pass begun
(the first, and one after every successful persist) and never otherwise; and a read at
which nothing complete has arrived when that deadline is reached ends the session with the
store unchanged and without an INSERT, whatever the peer would have sent afterwards. -/
theorem handleLoop_rearms_deadline (db : Store) (its : List Iter) :
    dataTimeout = 600 * 1000000000 ∧
    (handleLoop db its).trace.head? ≠ some .readJSON ∧
    (handleLoop db its).trace.Chain' (fun a b =>
      b = .readJSON → ∃ it ∈ its, a = .setReadDeadline (it.now + 600 * second)) ∧
    (handleLoop db its).trace.filterMap Action.deadline? =
      (its.take ((its.takeWhile fun it => !it.fails).length + 1)).map
        (fun it => it.now + 600 * second) ∧
    ∀ (it : Iter) (rest : List Iter), it.deadlineErr = false →
      it.now + 600 * second ≤ it.arrive →
      handleLoop db (it :: rest) =
        { db := db,
          trace := [.setReadDeadline (it.now + 600 * second), .readJSON, .log .readFailed],
          closed := true } := by
  refine ⟨rfl, handleLoop_head db its, handleLoop_chain db its, handleLoop_deadlines db its,
    ?_⟩
  intro it rest hdl harr
  have hr : readJSON (it.now + dataTimeout) it = .error .timeout := by
    have harr2 : it.now + dataTimeout ≤ it.arrive := harr
    unfold readJSON
    rw [if_pos harr2]
  rw [handleLoop_readErr db it rest .timeout hdl hr]
  simp [isUnexpectedCloseError, dataTimeout]

/-! ## Retrieval: the latest-snapshot query -/

theorem foldr_max_mem (l : List Nat) (h : l ≠ []) : l.foldr max 0 ∈ l := by
  induction l with
  | nil => exact absurd rfl h
  | cons a l ih =>
    by_cases hl : l = []
    · subst hl; simp
    · have := ih hl
      rcases max_choice a (l.foldr max 0) with hm | hm
      · simp only [List.foldr_cons, hm]; exact List.mem_cons_self _ _
      · simp only [List.foldr_cons, hm]; exact List.mem_cons_of_mem _ this

theorem le_maxTimestamp (db : Store) (r : Row) (hr : r ∈ db) :
    r.timestamp ≤ maxTimestamp db r.hostname := by
  apply le_foldr_max
  exact List.mem_map_of_mem _ (List.mem_filter.mpr ⟨hr, by simp⟩)

theorem maxTimestamp_attained (db : Store) (h : String) (hh : h ∈ db.map Row.hostname) :
    ∃ r ∈ db, r.hostname = h ∧ r.timestamp = maxTimestamp db h := by
  obtain ⟨r0, hr0, hr0h⟩ := List.mem_map.mp hh
  have hne : ((db.filter fun r => r.hostname = h).map Row.timestamp) ≠ [] := by
    intro hnil
    have : r0.timestamp ∈ ((db.filter fun r => r.hostname = h).map Row.timestamp) :=
      List.mem_map_of_mem _ (List.mem_filter.mpr ⟨hr0, by simp [hr0h]⟩)
    rw [hnil] at this
    cases this
  obtain ⟨r, hr, hrt⟩ := List.mem_map.mp (foldr_max_mem _ hne)
  obtain ⟨hrdb, hrh⟩ := List.mem_filter.mp hr
  exact ⟨r, hrdb, by simpa using hrh, hrt⟩

theorem mem_groupMax (db : Store) (h : String) (t : Nat) :
    (h, t) ∈ groupMax db ↔ h ∈ db.map Row.hostname ∧ t = maxTimestamp db h := by
  unfold groupMax
  constructor
  · intro hm
    obtain ⟨h', hh', heq⟩ := List.mem_map.mp hm
    have h1 : h' = h := congrArg Prod.fst heq
    have h2 : maxTimestamp db h' = t := congrArg Prod.snd heq
    subst h1
    exact ⟨List.mem_dedup.mp hh', h2.symm⟩
  · rintro ⟨hh, rfl⟩
    exact List.mem_map.mpr ⟨h, List.mem_dedup.mpr hh, rfl⟩

theorem mem_selectLatest (db : Store) (r : Row) :
    r ∈ selectLatest db ↔ r ∈ db ∧ r.timestamp = maxTimestamp db r.hostname := by
  unfold selectLatest
  rw [List.mem_filter, decide_eq_true_iff, mem_groupMax]
  constructor
  · rintro ⟨hr, -, ht⟩
    exact ⟨hr, ht⟩
  · rintro ⟨hr, ht⟩
    exact ⟨hr, List.mem_map_of_mem _ hr, ht⟩

theorem latestQuery_perm (db : Store) : (latestQuery db).Perm (selectLatest db) :=
  List.perm_insertionSort _ _

theorem isMax_iff (db : Store) (r : Row) (hr : r ∈ db) :
    r.timestamp = maxTimestamp db r.hostname ↔
      ∀ x ∈ db, x.hostname = r.hostname → x.timestamp ≤ r.timestamp := by
  constructor
  · intro h x hx hxh
    rw [h, ← hxh]
    exact le_maxTimestamp db x hx
  · intro h
    obtain ⟨x, hx, hxh, hxt⟩ := maxTimestamp_attained db r.hostname (List.mem_map_of_mem _ hr)
    exact le_antisymm (le_maxTimestamp db r hr) (hxt ▸ h x hx hxh)

theorem mem_latestQuery (db : Store) (r : Row) :
    r ∈ latestQuery db ↔
      r ∈ db ∧ ∀ x ∈ db, x.hostname = r.hostname → x.timestamp ≤ r.timestamp := by
  rw [(latestQuery_perm db).mem_iff, mem_selectLatest]
  constructor
  · rintro ⟨hr, h⟩
    exact ⟨hr, (isMax_iff db r hr).1 h⟩
  · rintro ⟨hr, h⟩
    exact ⟨hr, (isMax_iff db r hr).2 h⟩

theorem selectLatest_eq_filter (db : Store) :
    selectLatest db = db.filter fun r =>
      decide (∀ x ∈ db, x.hostname = r.hostname → x.timestamp ≤ r.timestamp) := by
  unfold selectLatest
  apply List.filter_congr
  intro r hr
  have h1 := mem_selectLatest db r
  have h2 := isMax_iff db r hr
  rw [decide_eq_decide, mem_groupMax]
  constructor
  · rintro ⟨-, ht⟩
    exact h2.1 ht
  · intro h
    exact ⟨List.mem_map_of_mem _ hr, h2.2 h⟩

theorem selectLatest_nodup_hostname (db : Store)
    (h : db.Pairwise fun a b => a.hostname = b.hostname → a.timestamp = b.timestamp →
      ∃ c ∈ db, c.hostname = a.hostname ∧ a.timestamp < c.timestamp) :
    ((selectLatest db).map Row.hostname).Nodup := by
  unfold List.Nodup
  rw [List.pairwise_map]
  have hsub : (selectLatest db).Pairwise fun a b => a.hostname = b.hostname →
      a.timestamp = b.timestamp →
      ∃ c ∈ db, c.hostname = a.hostname ∧ a.timestamp < c.timestamp :=
    h.sublist (List.filter_sublist _)
  refine hsub.imp_of_mem ?_
  intro a b ha hb hab heq
  obtain ⟨-, hat⟩ := (mem_selectLatest db a).1 ha
  obtain ⟨-, hbt⟩ := (mem_selectLatest db b).1 hb
  obtain ⟨c, hc, hch, hct⟩ := hab heq (by rw [hat, hbt, heq])
  have := le_maxTimestamp db c hc
  rw [hch, ← hat] at this
  omega

theorem pairwise_of_increasing (db : Store)
    (hinc : (db.map Row.timestamp).Pairwise (· < ·)) :
    db.Pairwise fun a b => a.hostname = b.hostname → a.timestamp = b.timestamp →
      ∃ c ∈ db, c.hostname = a.hostname ∧ a.timestamp < c.timestamp := by
  rw [List.pairwise_map] at hinc
  refine hinc.imp ?_
  intro a b hlt _ heq
  omega

theorem latestQuery_sorted (db : Store)
    (hnd : ((selectLatest db).map Row.hostname).Nodup) :
    ((latestQuery db).map Row.hostname).Sorted (· < ·) := by
  have htot : IsTotal Row (fun a b => a.hostname.toList ≤ b.hostname.toList) :=
    ⟨fun a b => le_total _ _⟩
  have htr : IsTrans Row (fun a b => a.hostname.toList ≤ b.hostname.toList) :=
    ⟨fun a b c hab hbc => le_trans hab hbc⟩
  have hs : (latestQuery db).Pairwise (fun a b => a.hostname.toList ≤ b.hostname.toList) :=
    List.sorted_insertionSort _ _
  have hnd2 : ((latestQuery db).map Row.hostname).Nodup :=
    (((latestQuery_perm db).map Row.hostname).nodup_iff).2 hnd
  unfold List.Nodup at hnd2
  rw [List.pairwise_map] at hnd2
  unfold List.Sorted
  rw [List.pairwise_map]
  refine (hs.and hnd2).imp ?_
  rintro a b ⟨hle, hne⟩
  rw [String.lt_iff_toList_lt]
  exact lt_of_le_of_ne hle (fun h => hne (String.toList_inj.mp h))

theorem host_has_row (db : Store) :
    ∀ h ∈ db.map Row.hostname, ∃ r ∈ latestQuery db, r.hostname = h := by
  intro h hh
  obtain ⟨r, hr, hrh, hrt⟩ := maxTimestamp_attained db h hh
  refine ⟨r, ?_, hrh⟩
  rw [(latestQuery_perm db).mem_iff, mem_selectLatest]
  exact ⟨hr, by rw [hrh]; exact hrt⟩

/-- C4: for every store contents the latest-snapshot query selects, for every hostname present
in the store, a row of that hostname, and every row it selects is a row of the store whose
timestamp is the maximum recorded for its hostname: no row of that hostname is newer. -/
theorem latestQuery_every_host_at_max (db : Store) :
    (∀ h ∈ db.map Row.hostname, ∃ r ∈ latestQuery db, r.hostname = h) ∧
    ∀ r ∈ latestQuery db,
      r ∈ db ∧ ∀ x ∈ db, x.hostname = r.hostname → x.timestamp ≤ r.timestamp := by
  exact ⟨host_has_row db, fun r hr => (mem_latestQuery db r).1 hr⟩

/-- What the query computes: up to order, the rows that are at the maximum timestamp of their
hostname; there is one row at most per hostname as long as no two rows of a hostname share
its maximum timestamp. -/
theorem latestQuery_one_row_per_host_unless_tied (db : Store) :
    ((db.Pairwise fun a b => a.hostname = b.hostname → a.timestamp = b.timestamp →
        ∃ c ∈ db, c.hostname = a.hostname ∧ a.timestamp < c.timestamp) →
      ((latestQuery db).map Row.hostname).Nodup) ∧
    (latestQuery db).Perm (db.filter fun r =>
      decide (∀ x ∈ db, x.hostname = r.hostname → x.timestamp ≤ r.timestamp)) := by
  constructor
  · intro h
    exact (((latestQuery_perm db).map Row.hostname).nodup_iff).2
      (selectLatest_nodup_hostname db h)
  · rw [← selectLatest_eq_filter]
    exact latestQuery_perm db

/-! ## Retrieval: scanning and rendering -/

theorem scanLoop_some (fmt : Nat → String) (scanErr : Row → Bool) (rows : List Row)
    (acc data : List Message) (h : scanLoop fmt scanErr rows acc = some data) :
    data = acc ++ rows.map (fun r => { scanRow fmt r with AuthToken := "", ID := 0 }) := by
  induction rows generalizing acc with
  | nil => simp [scanLoop] at h; simp [h]
  | cons r rest ih =>
    cases he : scanErr r with
    | true => simp [scanLoop, he] at h
    | false =>
      simp only [scanLoop, he] at h
      have := ih _ h
      simpa using this

theorem scanLoop_no_err (fmt : Nat → String) (scanErr : Row → Bool) (rows : List Row)
    (acc : List Message) (h : ∀ r ∈ rows, scanErr r = false) :
    scanLoop fmt scanErr rows acc
      = some (acc ++ rows.map (fun r => { scanRow fmt r with AuthToken := "", ID := 0 })) := by
  induction rows generalizing acc with
  | nil => simp [scanLoop]
  | cons r rest ih =>
    have hr : scanErr r = false := h r (List.mem_cons_self _ _)
    simp only [scanLoop, hr]
    rw [ih _ (fun x hx => h x (List.mem_cons_of_mem _ hx))]
    simp

theorem handleLatestData_data (env : QueryEnv) (db : Store) (data : List Message)
    (h : (handleLatestData env db).data = some data) :
    data = (delivered env.iterErr (latestQuery db)).map
      (fun r => { scanRow env.fmt r with AuthToken := "", ID := 0 }) := by
  unfold handleLatestData at h
  cases hq : env.queryErr with
  | true => simp [hq] at h
  | false =>
    cases hs : scanLoop env.fmt env.scanErr (delivered env.iterErr (latestQuery db)) [] with
    | none => simp [hq, hs] at h
    | some d =>
      have hd := scanLoop_some _ _ _ _ _ hs
      cases hp : env.parseErr with
      | true => simp [hq, hs, hp] at h
      | false =>
        simp only [hq, hs, hp] at h
        have : d = data := by
          cases he : (env.exec d).2 with
          | true => simpa [he] using h
          | false => simpa [he] using h
        rw [← this, hd]
        simp

theorem handleLatestData_data_of_ok (env : QueryEnv) (db : Store)
    (hq : env.queryErr = false) (hi : env.iterErr = none) (hs : ∀ r, env.scanErr r = false)
    (hp : env.parseErr = false) :
    (handleLatestData env db).data = some ((latestQuery db).map
      (fun r => { scanRow env.fmt r with AuthToken := "", ID := 0 })) := by
  unfold handleLatestData
  rw [hi]
  simp only [delivered]
  rw [scanLoop_no_err env.fmt env.scanErr (latestQuery db) [] (fun r _ => hs r)]
  simp only [hq, hp, Bool.false_eq_true, if_false]
  split <;> rfl

/-- C5: every record `handleLatestData` hands to the template has `ID` 0 and an empty
`AuthToken`, whatever the row holds and whatever the scan put into those two fields. -/
theorem handleLatestData_strips_id_and_token (env : QueryEnv) (db : Store)
    (data : List Message) (h : (handleLatestData env db).data = some data) :
    ∀ m ∈ data, m.ID = 0 ∧ m.AuthToken = "" := by
  intro m hm
  rw [handleLatestData_data env db data h] at hm
  obtain ⟨r, -, rfl⟩ := List.mem_map.mp hm
  exact ⟨rfl, rfl⟩

/-- Witness of C5: the store of the "web1" scenario, whose latest row has id 2 and
system_arch "amd64". -/
theorem handleLatestData_strips_id_and_token_witness :
    (latestQuery web1Store).map (fun r => (r.id, r.system_arch)) = [(2, "amd64")] ∧
    ∀ m ∈ (latestQuery web1Store).map
        (fun r => { scanRow brokenEnv.fmt r with AuthToken := "", ID := 0 }),
      m.ID = 0 ∧ m.AuthToken = "" :=
  ⟨by decide,
   handleLatestData_strips_id_and_token brokenEnv web1Store _
    (handleLatestData_data_of_ok brokenEnv web1Store rfl rfl (fun _ => rfl) rfl)⟩

/-- The query on a store whose rows were inserted with strictly increasing timestamps: its
rows come in strictly ascending order of the stored hostname, hence one row at most per
hostname; every hostname of the store has its row, so there are as many rows as distinct
hostnames; and each row is the most recently inserted row of its hostname. -/
theorem latestQuery_of_increasing_timestamps (db : Store)
    (hinc : (db.map Row.timestamp).Pairwise (· < ·)) :
    ((latestQuery db).map Row.hostname).Sorted (· < ·) ∧
    (∀ h ∈ db.map Row.hostname, ∃ r ∈ latestQuery db, r.hostname = h) ∧
    (latestQuery db).length = (db.map Row.hostname).dedup.length ∧
    ∀ r ∈ latestQuery db,
      (db.filter fun x => x.hostname = r.hostname).getLast? = some r := by
  have hnd := selectLatest_nodup_hostname db (pairwise_of_increasing db hinc)
  have hsorted := latestQuery_sorted db hnd
  have hall := host_has_row db
  refine ⟨hsorted, hall, ?_, ?_⟩
  · have hnd2 : ((latestQuery db).map Row.hostname).Nodup :=
      (((latestQuery_perm db).map Row.hostname).nodup_iff).2 hnd
    have hperm : ((latestQuery db).map Row.hostname).Perm (db.map Row.hostname).dedup := by
      rw [List.perm_ext_iff_of_nodup hnd2 (List.nodup_dedup _)]
      intro h
      rw [List.mem_dedup]
      constructor
      · intro hh
        obtain ⟨r, hr, rfl⟩ := List.mem_map.mp hh
        exact List.mem_map_of_mem _ ((mem_latestQuery db r).1 hr).1
      · intro hh
        obtain ⟨r, hr, rfl⟩ := hall h hh
        exact List.mem_map_of_mem _ hr
    simpa using hperm.length_eq
  · intro r hr
    obtain ⟨hrdb, hmax⟩ := (mem_latestQuery db r).1 hr
    have hrF : r ∈ db.filter fun x => x.hostname = r.hostname :=
      List.mem_filter.mpr ⟨hrdb, by simp⟩
    have hpw : (db.filter fun x => x.hostname = r.hostname).Pairwise
        (fun a b => a.timestamp < b.timestamp) :=
      (List.pairwise_map.mp hinc).sublist (List.filter_sublist _)
    rcases List.eq_nil_or_concat (db.filter fun x => x.hostname = r.hostname) with
      hnil | ⟨ys, l, hcat⟩
    · rw [hnil] at hrF; cases hrF
    · rw [List.concat_eq_append] at hcat
      rw [hcat] at hrF hpw
      have hl : l ∈ db.filter fun x => x.hostname = r.hostname := by
        rw [hcat]; simp
      obtain ⟨hldb, hlh⟩ := List.mem_filter.mp hl
      have hlh2 : l.hostname = r.hostname := by simpa using hlh
      have hle := hmax l hldb hlh2
      rcases List.mem_append.mp hrF with hin | hin
      · have := (List.pairwise_append.mp hpw).2.2 r hin l (by simp)
        omega
      · have hrl : r = l := by simpa using hin
        rw [hcat, hrl]
        simp

/-- The handler's records when nothing fails: one record per row of the query, in the order
of the rows (ascending stored hostname), each scanned from its row by `scanRow`; the stored
hostname of the row is in the record's field `OS`. -/
theorem handleLatestData_records (env : QueryEnv) (db : Store)
    (hq : env.queryErr = false) (hi : env.iterErr = none) (hs : ∀ r, env.scanErr r = false)
    (hp : env.parseErr = false) :
    ∃ data, (handleLatestData env db).data = some data ∧
      data.length = (latestQuery db).length ∧
      data.map Message.OS = (latestQuery db).map Row.hostname ∧
      data.map Message.Hostname = (latestQuery db).map fun r => env.fmt r.timestamp := by
  refine ⟨_, handleLatestData_data_of_ok env db hq hi hs hp, ?_, ?_, ?_⟩
  · simp
  · simp [scanRow, Function.comp_def]
  · simp [scanRow, Function.comp_def]

/-! ## Concrete runs -/

/-- C3 at two snapshots of "web1" persisted within the same second: both rows get the same
timestamp, both are at the maximum of their hostname, the latest-snapshot query yields both
rows, and `handleLatestData` hands two records of the one host to the template. -/
theorem latestQuery_tied_rows :
    tiedStore.map (fun r => (r.id, r.timestamp, r.hostname))
      = [(1, 1700000000, "web1"), (2, 1700000000, "web1")] ∧
    (latestQuery tiedStore).map (fun r => (r.id, r.hostname)) = [(1, "web1"), (2, "web1")] ∧
    ¬ ((latestQuery tiedStore).map Row.hostname).Nodup ∧
    ((handleLatestData (quietEnv rfc3339) tiedStore).data.map fun d =>
        d.map fun m => (m.Hostname, m.OS, m.Shell))
      = some [("2023-11-14T22:13:20Z", "web1", "1 day"),
          ("2023-11-14T22:13:20Z", "web1", "1 day, 0:01")] := by
  decide

/-- C6 at the scenario of the spec: after two snapshots of "web1" one second apart, the one
record `handleLatestData` builds has the row's timestamp in `Hostname`, the hostname in `OS`,
every later field one column behind, and the second snapshot's `SystemArch` nowhere. -/
theorem handleLatestData_shifts_columns (fmt : Nat → String) :
    web1Store.map Row.cols = [web1First.cols, web1Second.cols] ∧
    (handleLatestData (quietEnv fmt) web1Store).data = some [web1Record fmt] ∧
    (web1Record fmt).Hostname = fmt 1700000001 ∧
    (web1Record fmt).OS = web1Second.Hostname ∧ (web1Record fmt).OS ≠ web1Second.OS ∧
    (web1Record fmt).Uptime = web1Second.Kernel ∧
    (web1Record fmt).Uptime ≠ web1Second.Uptime ∧
    (web1Record fmt).SystemArch = web1Second.UsedDiskSpace ∧
    (web1Record fmt).SystemArch ≠ web1Second.SystemArch :=
  ⟨by decide, rfl, rfl, rfl, (by decide : ("web1" : String) ≠ "linux"), rfl,
    (by decide : ("6.1" : String) ≠ "1 day, 0:01"), rfl,
    (by decide : ("40G" : String) ≠ "amd64")⟩

/-- C7 at inserts for hostnames A, B, A one second apart: the query selects the newest row of
A (id 3) and then the only row of B (id 2), but the two records `handleLatestData` hands to
the template carry the rows' timestamps in `Hostname` and the hostnames in `OS`; the
`Hostname` fields are neither "A" and "B" nor in ascending order, and no field of the first
record holds the uptime "1 day, 0:02" of A's newest snapshot under its own name. -/
theorem handleLatestData_aba_records :
    abaStore.map (fun r => (r.id, r.timestamp, r.hostname))
      = [(1, 1, "A"), (2, 2, "B"), (3, 3, "A")] ∧
    (abaStore.map Row.timestamp).Pairwise (· < ·) ∧
    (latestQuery abaStore).map (fun r => (r.id, r.hostname, r.uptime))
      = [(3, "A", "1 day, 0:02"), (2, "B", "5 days")] ∧
    (handleLatestData (quietEnv rfc3339) abaStore).data = some abaRecords ∧
    abaRecords.map Message.Hostname = ["1970-01-01T00:00:03Z", "1970-01-01T00:00:02Z"] ∧
    abaRecords.map Message.Hostname ≠ ["A", "B"] ∧
    ¬ (abaRecords.map fun m => m.Hostname.toList).Pairwise (· ≤ ·) ∧
    abaRecords.map Message.OS = ["A", "B"] ∧
    abaRecords.map Message.Uptime = ["6.1", "6.1"] := by
  decide

/-- C9 at a template that fails after its first write: the response is committed with status
200 and carries the item rendered before the failure, followed by the error text. -/
theorem handleLatestData_partial_output :
    (handleLatestData brokenEnv web1Store).w
      = { status := some 200, body := "<li>web1</li>Failed to execute template\n" } ∧
    (handleLatestData brokenEnv web1Store).w.finalStatus = 200 := by
  decide

/-- The failures of `handleLatestData` that come before the first write: a failing query, a
failing scan, a template that cannot be parsed and a template execution that fails before
writing anything all answer with status 500 and the error text alone. -/
theorem handleLatestData_error_before_output (env : QueryEnv) (db : Store) :
    (env.queryErr = true → (handleLatestData env db).w
      = { status := some 500, body := "Failed to query database\n" }) ∧
    (env.queryErr = false →
      scanLoop env.fmt env.scanErr (delivered env.iterErr (latestQuery db)) [] = none →
      (handleLatestData env db).w = { status := some 500, body := "Failed to scan row\n" }) ∧
    (∀ data, env.queryErr = false →
      scanLoop env.fmt env.scanErr (delivered env.iterErr (latestQuery db)) [] = some data →
      env.parseErr = true →
      (handleLatestData env db).w
        = { status := some 500, body := "Failed to parse template\n" }) ∧
    (∀ data, env.queryErr = false →
      scanLoop env.fmt env.scanErr (delivered env.iterErr (latestQuery db)) [] = some data →
      env.parseErr = false →
      env.exec data = ([], true) →
      (handleLatestData env db).w
        = { status := some 500, body := "Failed to execute template\n" }) := by
  refine ⟨?_, ?_, ?_, ?_⟩
  · intro hq
    simp only [handleLatestData, hq, if_true, Bool.false_eq_true, if_false]
    decide
  · intro hq hs
    simp only [handleLatestData, hq, hs, if_true, Bool.false_eq_true, if_false]
    decide
  · intro data hq hs hp
    simp only [handleLatestData, hq, hs, hp, if_true, Bool.false_eq_true, if_false]
    decide
  · intro data hq hs hp he
    simp only [handleLatestData, hq, hs, hp, he, if_true, Bool.false_eq_true, if_false]
    decide

/-- An iteration over the result that fails after the first row goes unnoticed: of the two
rows the query has for `abaStore` only the first is scanned and rendered, with status 200;
when it fails before the first row an empty listing is rendered. -/
theorem handleLatestData_iteration_error :
    (latestQuery abaStore).length = 2 ∧
    (handleLatestData (cutEnv 1) abaStore).data = some (abaRecords.take 1) ∧
    (handleLatestData (cutEnv 1) abaStore).w
      = { status := some 200, body := "<li>1970-01-01T00:00:03Z</li>" } ∧
    (handleLatestData (cutEnv 0) abaStore).data = some [] ∧
    (handleLatestData (cutEnv 0) abaStore).w.finalStatus = 200 := by
  decide

/-- A run of `handleConnection`: the first snapshot is persisted, the second one's INSERT is
attempted once and fails, the session is closed and the third snapshot is never read. -/
theorem handleConnection_failing_session :
    handleConnection true [] failingSession =
      { db := [rowOf [] 1000000000 (sampleMsg "A" "1 day" authToken)],
        trace := [.setReadDeadline 601000000000, .readJSON,
          .insert (sampleMsg "A" "1 day" authToken).cols, .printOK "A",
          .setReadDeadline 602000000000, .readJSON,
          .insert (sampleMsg "B" "5 days" authToken).cols, .log .insertFailed, .close],
        closed := true } := by
  decide

end Saigon
